import Mathlib

/-!
Verification of the financial-metrics computation layer of the `quant_web`
trading dashboard.  The JavaScript sources under `src/client/src/metric_utils`
(win-rate FIFO matcher, daily-series statistics, benchmark-relative
statistics, the `calculateAllMetrics` orchestrator) and the chart
forward-fill logic of `App.js` are shallowly embedded below; numeric values
are modelled by `ℚ` (and by `ℝ` where the code takes square roots or real
powers), JavaScript `null`/missing values by `Option`, and the JavaScript
`Infinity` sentinel of the day-level profit/loss ratio by `⊤ : WithTop ℚ`.
-/

namespace QuantWeb

/-- `reduce((a, b) => a + b, 0)` -/
def listSum (l : List ℚ) : ℚ := l.foldl (· + ·) 0

/-! ## Data model (§3 of the spec) -/

/-- One record of `performance.daily_performances`. -/
structure DailyPerformance where
  trade_date : String
  daily_return : ℚ
  cumulative_return : ℚ
deriving DecidableEq

/-- One transaction record; `execution_datetime` is `none` when the field is
missing/falsy, in which case the code falls back to `trade_date`. -/
structure Transaction where
  code : String
  action : String
  quantity : ℚ
  price : ℚ
  net_amount : ℚ
  execution_datetime : Option ℕ
  trade_date : ℕ
deriving DecidableEq

/-- One bar of `benchmarkData.data`. -/
structure BenchmarkBar where
  date : String
  close : ℚ
  daily_return : ℚ
deriving DecidableEq

structure BenchmarkData where
  data : Option (List BenchmarkBar)
deriving DecidableEq

structure Performance where
  daily_performances : Option (List DailyPerformance)
  total_trades : ℚ
  total_return : ℚ
deriving DecidableEq

/-! ## winRateCalculator.js : `calculateWinRate` (FIFO round-trip matcher) -/

/-- An open BUY lot in a per-instrument FIFO queue
(`{quantity, price, net_amount, date}` pushed on each buy). -/
structure BuyLot where
  quantity : ℚ
  price : ℚ
  net_amount : ℚ
  date : ℕ
deriving DecidableEq

/-- A realized round trip (`{pnl, isWin, sellDate}`). -/
structure RoundTrip where
  pnl : ℚ
  isWin : Bool
  sellDate : ℕ
deriving DecidableEq

/-- Per-instrument state: FIFO buy queue plus completed round trips. -/
structure PositionState where
  buyQueue : List BuyLot
  roundTrips : List RoundTrip
deriving DecidableEq

structure WinRateResult where
  winRate : ℚ
  winningTradesCount : ℕ
  losingTradesCount : ℕ
  profitLossRatio : ℚ
deriving DecidableEq

/-- `new Date(tx.execution_datetime || tx.trade_date)` as a sort key. -/
def txDate (tx : Transaction) : ℕ := tx.execution_datetime.getD tx.trade_date

/-- `tx.action.toLowerCase()`; mapped over the character data so that it
evaluates by kernel reduction. -/
def lowerAction (a : String) : List Char := a.data.map Char.toLower

/-- The `while (remainingSellQty > 0 && position.buyQueue.length > 0)` loop:
consume lots from the front of the buy queue, full lots removed, a partial
lot shrunk proportionally; returns the accumulated `totalBuyCost` and the
remaining queue. -/
def consumeBuys : List BuyLot → ℚ → ℚ × List BuyLot
  | [], _ => (0, [])
  | lot :: rest, remainingSellQty =>
    if 0 < remainingSellQty then
      if lot.quantity ≤ remainingSellQty then
        let r := consumeBuys rest (remainingSellQty - lot.quantity)
        (lot.net_amount + r.1, r.2)
      else
        let proportionalCost := remainingSellQty / lot.quantity * lot.net_amount
        (proportionalCost,
          { lot with
            quantity := lot.quantity - remainingSellQty,
            net_amount := lot.net_amount - proportionalCost } :: rest)
    else (0, lot :: rest)

/-- `stockPositions[code]` access with creation of a fresh
`{buyQueue: [], roundTrips: []}` entry on first touch, then an update. -/
def updatePositions (ps : List (String × PositionState)) (code : String)
    (f : PositionState → PositionState) : List (String × PositionState) :=
  if (ps.find? (fun p => decide (p.1 = code))).isSome then
    ps.map (fun p => if p.1 = code then (p.1, f p.2) else p)
  else ps ++ [(code, f ⟨[], []⟩)]

/-- Body of `sortedTransactions.forEach(tx => ...)`. -/
def processTx (ps : List (String × PositionState)) (tx : Transaction) :
    List (String × PositionState) :=
  updatePositions ps tx.code (fun position =>
    if lowerAction tx.action = "buy".data then
      { position with
        buyQueue := position.buyQueue ++
          [⟨tx.quantity, tx.price, tx.net_amount, txDate tx⟩] }
    else if lowerAction tx.action = "sell".data then
      let r := consumeBuys position.buyQueue tx.quantity
      if 0 < r.1 then
        { buyQueue := r.2,
          roundTrips := position.roundTrips ++
            [⟨tx.net_amount - r.1, decide (0 < tx.net_amount - r.1), txDate tx⟩] }
      else { position with buyQueue := r.2 }
    else position)

/-- `[...transactions].sort((a, b) => dateA - dateB)` (stable, ascending). -/
def sortTransactions (ts : List Transaction) : List Transaction :=
  List.insertionSort (fun a b => txDate a ≤ txDate b) ts

/-- All completed round trips, instruments in insertion order
(`Object.values(stockPositions)`). -/
def winRateTrips (transactions : List Transaction) : List RoundTrip :=
  ((sortTransactions transactions).foldl processTx []).foldl
    (fun acc p => acc ++ p.2.roundTrips) []

/-- `calculateWinRate` of `winRateCalculator.js`. -/
def calculateWinRate (transactions : List Transaction) : WinRateResult :=
  if transactions = [] then ⟨0, 0, 0, 0⟩
  else
    let trips := winRateTrips transactions
    let winningTrades := (trips.filter (fun t => t.isWin)).length
    let losingTrades := (trips.filter (fun t => !t.isWin)).length
    let totalRoundTrips := winningTrades + losingTrades
    let winRate : ℚ :=
      if 0 < totalRoundTrips then (winningTrades : ℚ) / totalRoundTrips else 0
    let profitLossRatio : ℚ :=
      if 0 < losingTrades then (winningTrades : ℚ) / losingTrades
      else if 0 < winningTrades then (winningTrades : ℚ) else 0
    ⟨winRate, winningTrades, losingTrades, profitLossRatio⟩

/-! ## performanceMetrics.js -/

/-- Result of `calculateMaxDrawdown`: magnitude plus nullable peak/trough
dates (`dailyPerformances[idx]?.trade_date`). -/
structure DrawdownResult where
  maxDrawdown : ℚ
  maxDrawdownPeakDate : Option String
  maxDrawdownTroughDate : Option String
deriving DecidableEq

/-- Mutable loop state of `calculateMaxDrawdown`:
`peakReturn, peakIdx, maxDD, maxDDPeakIdx, maxDDTroughIdx`. -/
structure DDState where
  peak : ℚ
  peakIdx : ℕ
  maxDD : ℚ
  ddPeakIdx : ℕ
  ddTroughIdx : ℕ
deriving DecidableEq

/-- One iteration of the `calculateMaxDrawdown` loop at index `i` with
cumulative return `c`: re-establish the running peak on a new high, then
record the most negative drawdown `current - peak` with its index pair. -/
def ddStep (i : ℕ) (s : DDState) (c : ℚ) : DDState :=
  let pk := if s.peak < c then (c, i) else (s.peak, s.peakIdx)
  let drawdown := c - pk.1
  if drawdown < s.maxDD then ⟨pk.1, pk.2, drawdown, pk.2, i⟩
  else ⟨pk.1, pk.2, s.maxDD, s.ddPeakIdx, s.ddTroughIdx⟩

/-- The `for (let i = 0; i < cumulativeReturns.length; i++)` loop of
`calculateMaxDrawdown`. -/
def ddLoop : List ℚ → ℕ → DDState → DDState
  | [], _, s => s
  | c :: rest, i, s => ddLoop rest (i + 1) (ddStep i s c)

/-- `calculateMaxDrawdown` of `performanceMetrics.js` (drawdowns taken on the
`cumulative_return` series; initial peak is the first cumulative return). -/
def calculateMaxDrawdown (dailyPerformances : List DailyPerformance) : DrawdownResult :=
  match dailyPerformances with
  | [] => ⟨0, none, none⟩
  | d0 :: _ =>
    let cumulativeReturns := dailyPerformances.map (fun d => d.cumulative_return)
    let s := ddLoop cumulativeReturns 0 ⟨d0.cumulative_return, 0, 0, 0, 0⟩
    ⟨s.maxDD,
      (dailyPerformances.get? s.ddPeakIdx).map (fun d => d.trade_date),
      (dailyPerformances.get? s.ddTroughIdx).map (fun d => d.trade_date)⟩

/-- `calculateSortinoRatio` (downside deviation as RMS of negative returns,
annualized by `√252`; risk-free rate passed explicitly, the JS default being
`0.03`). -/
noncomputable def calculateSortinoRatio (dailyReturns : List ℚ) (riskFreeRate : ℚ) : ℝ :=
  if dailyReturns = [] then 0
  else
    let negativeReturns := dailyReturns.filter (fun r => decide (r < 0))
    if negativeReturns = [] then 0
    else
      let downsideStd :=
        Real.sqrt ((negativeReturns.foldl (fun sum r => sum + r * r) 0 /
          negativeReturns.length : ℚ) : ℝ) * Real.sqrt 252
      let avgReturn : ℚ := listSum dailyReturns / dailyReturns.length * 252
      if 0 < downsideStd then ((avgReturn : ℝ) - (riskFreeRate : ℝ)) / downsideStd
      else 0

/-- `calculateAnnualReturn` of `performanceMetrics.js`: the API `total_return`
is percentage-scaled and divided by 100 unconditionally; periods shorter than
5 trading days return 0; otherwise geometric annualization with
`Math.pow(1 + returnDecimal, 1 / (tradingDays / 252))`. -/
noncomputable def calculateAnnualReturn (totalReturn : ℚ) (tradingDays : ℕ) : ℝ :=
  if tradingDays = 0 then 0
  else
    let returnDecimal : ℚ := totalReturn / 100
    if returnDecimal = 0 then 0
    else if tradingDays < 5 then 0
    else ((1 : ℝ) + (returnDecimal : ℝ)) ^ ((1 : ℝ) / ((tradingDays : ℝ) / 252)) - 1

/-- `calculateMaxRise`: `Math.max(...cumulativeReturns, 0)`. -/
def calculateMaxRise (cumulativeReturns : List ℚ) : ℚ :=
  if cumulativeReturns = [] then 0 else cumulativeReturns.foldl max 0

/-- `calculateDailyTradeRate`: `totalTrades / tradingDays`, 0 without days. -/
def calculateDailyTradeRate (totalTrades : ℚ) (tradingDays : ℕ) : ℚ :=
  if tradingDays = 0 then 0 else totalTrades / (tradingDays : ℚ)

/-- `calculateDailyWinRate`: fraction of days with strictly positive return. -/
def calculateDailyWinRate (dailyReturns : List ℚ) : ℚ :=
  if dailyReturns = [] then 0
  else ((dailyReturns.filter (fun r => decide (0 < r))).length : ℚ) / dailyReturns.length

/-- Result of `calculateProfitLossRatio`; the JS `Infinity` sentinel is
`⊤ : WithTop ℚ`. -/
structure PLRatioResult where
  profitLossRatio : WithTop ℚ
  winningDaysCount : ℕ
  losingDaysCount : ℕ
deriving DecidableEq

/-- `calculateProfitLossRatio` of `performanceMetrics.js`: average winning-day
return over the absolute average losing-day return; `Infinity` when there are
wins but no losses, 0 when neither exists. -/
def calculateProfitLossRatio (dailyReturns : List ℚ) : PLRatioResult :=
  if dailyReturns = [] then ⟨0, 0, 0⟩
  else
    let winningDays := dailyReturns.filter (fun r => decide (0 < r))
    let losingDays := dailyReturns.filter (fun r => decide (r < 0))
    if winningDays.length = 0 ∨ losingDays.length = 0 then
      ⟨if 0 < winningDays.length then ⊤ else 0, winningDays.length, losingDays.length⟩
    else
      let avgProfit := listSum winningDays / winningDays.length
      let avgLoss := |listSum losingDays / losingDays.length|
      ⟨if 0 < avgLoss then ((avgProfit / avgLoss : ℚ) : WithTop ℚ) else 0,
        winningDays.length, losingDays.length⟩

/-! ## benchmarkMetrics.js (current version, CAPM form) -/

structure AlphaBeta where
  alpha : ℚ
  beta : ℚ
deriving DecidableEq

/-- `calculateAlphaBeta`: population covariance/variance over the overlapping
window (divide by `minLength`), beta guarded by positive variance, alpha in
full CAPM expected-return form. -/
def calculateAlphaBeta (strategyReturns benchmarkReturns : List ℚ)
    (totalStrategyReturn totalBenchmarkReturn riskFreeRate : ℚ) : AlphaBeta :=
  let minLength := min strategyReturns.length benchmarkReturns.length
  if minLength < 10 then ⟨0, 0⟩
  else
    let strategyMean := listSum (strategyReturns.take minLength) / minLength
    let benchmarkMean := listSum (benchmarkReturns.take minLength) / minLength
    let pairs := (strategyReturns.take minLength).zip (benchmarkReturns.take minLength)
    let sums := pairs.foldl
      (fun acc p =>
        (acc.1 + (p.1 - strategyMean) * (p.2 - benchmarkMean),
         acc.2 + (p.2 - benchmarkMean) * (p.2 - benchmarkMean))) (0, 0)
    let covariance := sums.1 / minLength
    let benchmarkVariance := sums.2 / minLength
    let beta := if 0 < benchmarkVariance then covariance / benchmarkVariance else 0
    let expectedReturn := riskFreeRate + beta * (totalBenchmarkReturn - riskFreeRate)
    ⟨totalStrategyReturn - expectedReturn, beta⟩

/-- `calculateInformationRatio`: annualized mean/population-stddev of the
daily excess returns, 0 below 10 paired points or at zero stddev. -/
noncomputable def calculateInformationRatio (strategyReturns benchmarkReturns : List ℚ) : ℝ :=
  let minLength := min strategyReturns.length benchmarkReturns.length
  if minLength < 10 then 0
  else
    let excessReturns :=
      ((strategyReturns.take minLength).zip (benchmarkReturns.take minLength)).map
        (fun p => p.1 - p.2)
    let meanExcess := listSum excessReturns / excessReturns.length
    let variance :=
      excessReturns.foldl (fun sum r => sum + (r - meanExcess) ^ 2) 0 / excessReturns.length
    let stdDev := Real.sqrt (variance : ℝ)
    if stdDev = 0 then 0 else ((meanExcess : ℝ) / stdDev) * Real.sqrt 252

/-- `calculateBenchmarkReturn` (current version): compound product
`(1+r_1)⋯(1+r_n) − 1`, 0 for a missing/empty list. -/
def calculateBenchmarkReturn (benchmarkReturns : List ℚ) : ℚ :=
  if benchmarkReturns = [] then 0
  else benchmarkReturns.foldl (fun cumulativeReturn r => cumulativeReturn * (1 + r)) 1 - 1

/-- `calculateExcessReturn`. -/
def calculateExcessReturn (strategyReturn benchmarkReturn : ℚ) : ℚ :=
  strategyReturn - benchmarkReturn

/-- `calculateAvgDailyExcessReturn`. -/
def calculateAvgDailyExcessReturn (strategyReturns benchmarkReturns : List ℚ) : ℚ :=
  let minLength := min strategyReturns.length benchmarkReturns.length
  if minLength = 0 then 0
  else
    let excessReturns :=
      ((strategyReturns.take minLength).zip (benchmarkReturns.take minLength)).map
        (fun p => p.1 - p.2)
    listSum excessReturns / excessReturns.length

/-- `calculateBenchmarkVolatility`: population stddev annualized by `√252`. -/
noncomputable def calculateBenchmarkVolatility (benchmarkReturns : List ℚ) : ℝ :=
  if benchmarkReturns = [] then 0
  else
    let mean := listSum benchmarkReturns / benchmarkReturns.length
    let variance :=
      benchmarkReturns.foldl (fun sum r => sum + (r - mean) ^ 2) 0 / benchmarkReturns.length
    Real.sqrt (variance : ℝ) * Real.sqrt 252

/-- Cumulative sums of the daily excess returns (the `cumulative` variable of
`calculateExcessReturnMaxDrawdown`). -/
def cumulativeSums (l : List ℚ) : List ℚ :=
  (l.foldl (fun acc r => (acc.1 + r, acc.2 ++ [acc.1 + r])) ((0 : ℚ), ([] : List ℚ))).2

/-- The index-free running-peak/drawdown scan used on cumulative excess
returns. -/
def simpleMaxDD (l : List ℚ) : ℚ :=
  match l with
  | [] => 0
  | c0 :: _ =>
    (l.foldl
      (fun s c =>
        let pk := if s.1 < c then c else s.1
        let drawdown := c - pk
        (pk, if drawdown < s.2 then drawdown else s.2)) (c0, (0 : ℚ))).2

/-- `calculateExcessReturnMaxDrawdown`: the running-peak scan over the
cumulative sum (not compound product) of daily excess returns. -/
def calculateExcessReturnMaxDrawdown (strategyReturns benchmarkReturns : List ℚ) : ℚ :=
  let minLength := min strategyReturns.length benchmarkReturns.length
  if minLength = 0 then 0
  else
    simpleMaxDD (cumulativeSums
      (((strategyReturns.take minLength).zip (benchmarkReturns.take minLength)).map
        (fun p => p.1 - p.2)))

/-! ## index.js : `calculateAllMetrics` orchestrator -/

/-- The full metric record of the §6 contract. -/
structure MetricsResult where
  informationRatio : ℝ
  maxRise : ℚ
  dailyTradeRate : ℚ
  benchmarkReturn : ℚ
  alpha : ℚ
  beta : ℚ
  winRate : ℚ
  dailyWinRate : ℚ
  tradeWinRate : ℚ
  annualReturn : ℝ
  maxDrawdown : ℚ
  sortino : ℝ
  profitLossRatio : WithTop ℚ
  winningDaysCount : ℕ
  losingDaysCount : ℕ
  winningTradesCount : ℕ
  losingTradesCount : ℕ
  tradeWinLoseRatio : ℚ
  maxDrawdownPeakDate : Option String
  maxDrawdownTroughDate : Option String
  excessReturn : ℚ
  avgDailyExcessReturn : ℚ
  benchmarkVolatility : ℝ
  excessReturnMaxDrawdown : ℚ

/-- The daily-series block of the result (first `if` of the orchestrator). -/
structure DailyStats where
  maxRise : ℚ
  dailyTradeRate : ℚ
  annualReturn : ℝ
  maxDrawdown : ℚ
  maxDrawdownPeakDate : Option String
  maxDrawdownTroughDate : Option String
  sortino : ℝ
  dailyWinRate : ℚ
  profitLossRatio : WithTop ℚ
  winningDaysCount : ℕ
  losingDaysCount : ℕ

/-- The benchmark-relative block of the result (last `if`). -/
structure BenchStats where
  benchmarkReturn : ℚ
  alpha : ℚ
  beta : ℚ
  informationRatio : ℝ
  excessReturn : ℚ
  avgDailyExcessReturn : ℚ
  benchmarkVolatility : ℝ
  excessReturnMaxDrawdown : ℚ

/-- The `else` block zeroing the daily-series fields. -/
def zeroDailyStats : DailyStats :=
  { maxRise := 0, dailyTradeRate := 0, annualReturn := 0, maxDrawdown := 0,
    maxDrawdownPeakDate := none, maxDrawdownTroughDate := none, sortino := 0,
    dailyWinRate := 0, profitLossRatio := 0, winningDaysCount := 0, losingDaysCount := 0 }

/-- The `else` block zeroing the benchmark-relative fields. -/
def zeroBenchStats : BenchStats :=
  { benchmarkReturn := 0, alpha := 0, beta := 0, informationRatio := 0,
    excessReturn := 0, avgDailyExcessReturn := 0, benchmarkVolatility := 0,
    excessReturnMaxDrawdown := 0 }

/-- `calculateAllMetrics(performance, benchmarkData, transactions)` of
`index.js`.  A JavaScript-falsy `performance` is `none`; note that the
benchmark branch only requires `performance.daily_performances` to be
present (truthy), not non-empty. -/
noncomputable def calculateAllMetrics (performance : Option Performance)
    (benchmarkData : Option BenchmarkData) (transactions : List Transaction) :
    MetricsResult :=
  match performance with
  | none =>
    { informationRatio := 0, maxRise := 0, dailyTradeRate := 0, benchmarkReturn := 0,
      alpha := 0, beta := 0, winRate := 0, dailyWinRate := 0, tradeWinRate := 0,
      annualReturn := 0, maxDrawdown := 0, sortino := 0, profitLossRatio := 0,
      winningDaysCount := 0, losingDaysCount := 0, winningTradesCount := 0,
      losingTradesCount := 0, tradeWinLoseRatio := 0, maxDrawdownPeakDate := none,
      maxDrawdownTroughDate := none, excessReturn := 0, avgDailyExcessReturn := 0,
      benchmarkVolatility := 0, excessReturnMaxDrawdown := 0 }
  | some perf =>
    let ds : DailyStats :=
      match perf.daily_performances with
      | some dps =>
        if 0 < dps.length then
          let cumulativeReturns := dps.map (fun d => d.cumulative_return)
          let dailyReturns := dps.map (fun d => d.daily_return)
          let tradingDays := dps.length
          let drawdownMetrics := calculateMaxDrawdown dps
          let plRatioMetrics := calculateProfitLossRatio dailyReturns
          { maxRise := calculateMaxRise cumulativeReturns,
            dailyTradeRate := calculateDailyTradeRate perf.total_trades tradingDays,
            annualReturn := calculateAnnualReturn perf.total_return tradingDays,
            maxDrawdown := drawdownMetrics.maxDrawdown,
            maxDrawdownPeakDate := drawdownMetrics.maxDrawdownPeakDate,
            maxDrawdownTroughDate := drawdownMetrics.maxDrawdownTroughDate,
            sortino := calculateSortinoRatio dailyReturns (3 / 100),
            dailyWinRate := calculateDailyWinRate dailyReturns,
            profitLossRatio := plRatioMetrics.profitLossRatio,
            winningDaysCount := plRatioMetrics.winningDaysCount,
            losingDaysCount := plRatioMetrics.losingDaysCount }
        else zeroDailyStats
      | none => zeroDailyStats
    let tradeWinRateMetrics := calculateWinRate transactions
    let tradeWinLoseRatio : ℚ :=
      if 0 < tradeWinRateMetrics.losingTradesCount then
        (tradeWinRateMetrics.winningTradesCount : ℚ) / tradeWinRateMetrics.losingTradesCount
      else if 0 < tradeWinRateMetrics.winningTradesCount then
        (tradeWinRateMetrics.winningTradesCount : ℚ)
      else 0
    let bs : BenchStats :=
      match benchmarkData with
      | some bd =>
        match bd.data with
        | some bars =>
          match perf.daily_performances with
          | some dps =>
            let strategyReturns := dps.map (fun d => d.daily_return)
            let benchmarkReturns := bars.map (fun b => b.daily_return)
            let benchmarkReturn := calculateBenchmarkReturn benchmarkReturns
            let totalStrategyReturnDecimal := perf.total_return / 100
            let alphaBeta := calculateAlphaBeta strategyReturns benchmarkReturns
              totalStrategyReturnDecimal benchmarkReturn (3 / 100)
            { benchmarkReturn := benchmarkReturn,
              alpha := alphaBeta.alpha, beta := alphaBeta.beta,
              informationRatio := calculateInformationRatio strategyReturns benchmarkReturns,
              excessReturn := calculateExcessReturn totalStrategyReturnDecimal benchmarkReturn,
              avgDailyExcessReturn :=
                calculateAvgDailyExcessReturn strategyReturns benchmarkReturns,
              benchmarkVolatility := calculateBenchmarkVolatility benchmarkReturns,
              excessReturnMaxDrawdown :=
                calculateExcessReturnMaxDrawdown strategyReturns benchmarkReturns }
          | none => zeroBenchStats
        | none => zeroBenchStats
      | none => zeroBenchStats
    { informationRatio := bs.informationRatio, maxRise := ds.maxRise,
      dailyTradeRate := ds.dailyTradeRate, benchmarkReturn := bs.benchmarkReturn,
      alpha := bs.alpha, beta := bs.beta, winRate := ds.dailyWinRate,
      dailyWinRate := ds.dailyWinRate, tradeWinRate := tradeWinRateMetrics.winRate,
      annualReturn := ds.annualReturn, maxDrawdown := ds.maxDrawdown,
      sortino := ds.sortino, profitLossRatio := ds.profitLossRatio,
      winningDaysCount := ds.winningDaysCount, losingDaysCount := ds.losingDaysCount,
      winningTradesCount := tradeWinRateMetrics.winningTradesCount,
      losingTradesCount := tradeWinRateMetrics.losingTradesCount,
      tradeWinLoseRatio := tradeWinLoseRatio,
      maxDrawdownPeakDate := ds.maxDrawdownPeakDate,
      maxDrawdownTroughDate := ds.maxDrawdownTroughDate,
      excessReturn := bs.excessReturn, avgDailyExcessReturn := bs.avgDailyExcessReturn,
      benchmarkVolatility := bs.benchmarkVolatility,
      excessReturnMaxDrawdown := bs.excessReturnMaxDrawdown }

/-! ## App.js : combined chart series, benchmark forward-fill
(percentage display mode, lines 1055–1099) -/

/-- One point of the `dailyPnl` series being charted. -/
structure PnlDay where
  date : String
  value : ℚ
deriving DecidableEq

/-- The `benchmarkMap[date]` lookup (`forEach` assignment: the last bar of a
given date wins). -/
def bmClose (bars : List BenchmarkBar) (d : String) : Option ℚ :=
  ((bars.filter (fun b => decide (b.date = d))).getLast?).map (fun b => b.close)

/-- The forward-fill scan `for (let i = idx - 1; i >= 0; i--)`: the most
recent prior strategy day whose date has benchmark data with positive close,
its value re-expressed relative to day 1's close; 0 if no such day exists. -/
def ffillValue (days : List PnlDay) (bars : List BenchmarkBar) (c0 : ℚ) : ℕ → ℚ
  | 0 => 0
  | i + 1 =>
    match days.get? i with
    | none => ffillValue days bars c0 i
    | some d =>
      match bmClose bars d.date with
      | none => ffillValue days bars c0 i
      | some c => if 0 < c then (c - c0) / c0 * 100 else ffillValue days bars c0 i

/-- The benchmark value plotted for `dailyPnl[idx]` in percentage display
mode: 0 on day one, else percentage change of the benchmark close from day
one's close, forward-filled from the most recent prior day when the current
date has no (positive-close) benchmark entry. -/
def chartBenchmarkValue (days : List PnlDay) (bars : List BenchmarkBar) (idx : ℕ) : ℚ :=
  if idx = 0 then 0
  else
    match days.get? 0 with
    | none => 0
    | some d0 =>
      match bmClose bars d0.date with
      | none => 0
      | some c0 =>
        if 0 < c0 then
          match days.get? idx with
          | none => 0
          | some d =>
            match bmClose bars d.date with
            | some c => if 0 < c then (c - c0) / c0 * 100 else ffillValue days bars c0 idx
            | none => ffillValue days bars c0 idx
        else 0

/-! ## Spec-side formulas (written from the spec's words, for refinement
comparisons) -/

/-- Modelled from the spec: simple mean of a list of returns. -/
def popMean (l : List ℚ) : ℚ := l.sum / l.length

/-- Modelled from the spec: population covariance of paired returns
(divide by N, not N−1). -/
def popCovariance (x y : List ℚ) : ℚ :=
  ((x.zip y).map (fun p => (p.1 - popMean x) * (p.2 - popMean y))).sum / x.length

/-- Modelled from the spec: population variance (divide by N, not N−1). -/
def popVariance (l : List ℚ) : ℚ :=
  (l.map (fun r => (r - popMean l) ^ 2)).sum / l.length

/-- Modelled from the spec: compound product `∏(1+r_i) − 1`. -/
def specCompoundReturn (l : List ℚ) : ℚ := (l.map (fun r => 1 + r)).prod - 1

/-- BUY 100 @ 10, net 1000. -/
def buyTx1 : Transaction := ⟨"STK", "BUY", 100, 10, 1000, some 1, 1⟩

/-- BUY 100 @ 12, net 1200. -/
def buyTx2 : Transaction := ⟨"STK", "BUY", 100, 12, 1200, some 2, 2⟩

/-- SELL 150 @ 15, net 2250. -/
def sellTx3 : Transaction := ⟨"STK", "SELL", 150, 15, 2250, some 3, 3⟩

/-- Four-day performance series with cumulative returns
`[0, 0.05, -0.02, 0.03]`. -/
def ddExample : List DailyPerformance :=
  [⟨"2024-01-01", 0, 0⟩, ⟨"2024-01-02", 5 / 100, 5 / 100⟩,
   ⟨"2024-01-03", -(7 / 100), -(2 / 100)⟩, ⟨"2024-01-04", 5 / 100, 3 / 100⟩]

/-- A one-day series whose cumulative-return series is trivially
non-decreasing, so no drawdown period exists. -/
def flatDay : List DailyPerformance := [⟨"2024-01-01", 0, 0⟩]

/-- Three chart days, the third date absent from the benchmark series. -/
def chartDays : List PnlDay := [⟨"d0", 100⟩, ⟨"d1", 101⟩, ⟨"d2", 102⟩]

/-- Benchmark bars for `d0` and `d1` only (gap at `d2`). -/
def chartBars : List BenchmarkBar := [⟨"d0", 10, 0⟩, ⟨"d1", 12, 2 / 10⟩]

/-- Strategy/benchmark return series with ten paired observations. -/
def tenA : List ℚ := [1, 2, 3, 4, 5, 1, 2, 3, 4, 10]

/-- A second ten-element series. -/
def tenB : List ℚ := [2, 1, 4, 3, 5, 2, 1, 4, 3, 9]

/-- Performance object whose `daily_performances` is present but empty. -/
def emptyDailyPerf : Performance := ⟨some [], 7, 11⟩

/-- Benchmark object with a non-empty two-bar series. -/
def twoBarBenchmark : BenchmarkData := ⟨some [⟨"d0", 10, 1 / 10⟩, ⟨"d1", 12, 1 / 5⟩]⟩

/-! ## Helper lemmas -/

theorem foldl_add_eq_sum {α : Type} (f : α → ℚ) :
    ∀ (l : List α) (a : ℚ), l.foldl (fun s x => s + f x) a = a + (l.map f).sum
  | [], a => by simp
  | x :: l, a => by
    rw [List.foldl_cons, foldl_add_eq_sum f l (a + f x), List.map_cons, List.sum_cons]
    ring

theorem listSum_eq_sum : ∀ l : List ℚ, listSum l = l.sum := by
  intro l
  have h := foldl_add_eq_sum (fun r : ℚ => r) l 0
  simpa [listSum] using h

theorem foldl_pair_eq_sums {α : Type} (f g : α → ℚ) :
    ∀ (l : List α) (a b : ℚ),
      l.foldl (fun acc p => (acc.1 + f p, acc.2 + g p)) (a, b) =
        (a + (l.map f).sum, b + (l.map g).sum)
  | [], a, b => by simp
  | x :: l, a, b => by
    rw [List.foldl_cons]
    rw [foldl_pair_eq_sums f g l (a + f x) (b + g x)]
    simp [List.sum_cons]
    constructor <;> ring

theorem foldl_mul_eq_prod :
    ∀ (l : List ℚ) (a : ℚ),
      l.foldl (fun acc r => acc * (1 + r)) a = a * (l.map (fun r => 1 + r)).prod
  | [], a => by simp
  | x :: l, a => by
    rw [List.foldl_cons, foldl_mul_eq_prod l (a * (1 + x)), List.map_cons, List.prod_cons]
    ring

theorem sum_eq_zero_of_nonneg :
    ∀ l : List ℚ, (∀ x ∈ l, 0 ≤ x) → l.sum = 0 → ∀ x ∈ l, x = 0
  | [], _, _, x, hx => absurd hx (List.not_mem_nil x)
  | y :: l, hnn, hsum, x, hx => by
    have hy : 0 ≤ y := hnn y (List.mem_cons_self y l)
    have hl : ∀ z ∈ l, 0 ≤ z := fun z hz => hnn z (List.mem_cons_of_mem y hz)
    have hls : 0 ≤ l.sum := List.sum_nonneg hl
    rw [List.sum_cons] at hsum
    have hy0 : y = 0 := by linarith
    have hl0 : l.sum = 0 := by linarith
    rcases List.mem_cons.mp hx with h | h
    · rw [h, hy0]
    · exact sum_eq_zero_of_nonneg l hl hl0 x h

theorem ddStep_maxDD_nonpos (i : ℕ) (s : DDState) (c : ℚ) (h : s.maxDD ≤ 0) :
    (ddStep i s c).maxDD ≤ 0 := by
  simp only [ddStep]
  split_ifs with h1 h2 h3 <;> dsimp only <;> linarith

theorem ddLoop_maxDD_nonpos :
    ∀ (l : List ℚ) (i : ℕ) (s : DDState), s.maxDD ≤ 0 → (ddLoop l i s).maxDD ≤ 0
  | [], _, _, h => h
  | c :: rest, i, s, h =>
    ddLoop_maxDD_nonpos rest (i + 1) (ddStep i s c) (ddStep_maxDD_nonpos i s c h)

theorem ddStep_chain (i : ℕ) (s : DDState) (c : ℚ) (hpc : s.peak ≤ c)
    (h1 : s.maxDD = 0) (h2 : s.ddPeakIdx = 0) (h3 : s.ddTroughIdx = 0) :
    ddStep i s c = ⟨c, (if s.peak < c then (c, i) else (s.peak, s.peakIdx)).2, 0, 0, 0⟩ := by
  simp only [ddStep]
  have hpk : (if s.peak < c then (c, i) else (s.peak, s.peakIdx)).1 = c := by
    split
    · rfl
    · rename_i hnlt
      exact le_antisymm hpc (not_lt.mp hnlt)
  rw [hpk]
  have hdd : ¬ c - c < s.maxDD := by rw [h1]; simp
  rw [if_neg hdd, h1, h2, h3]

theorem ddLoop_chain :
    ∀ (l : List ℚ) (i : ℕ) (s : DDState), List.Chain (· ≤ ·) s.peak l →
      s.maxDD = 0 → s.ddPeakIdx = 0 → s.ddTroughIdx = 0 →
      (ddLoop l i s).maxDD = 0 ∧ (ddLoop l i s).ddPeakIdx = 0 ∧
        (ddLoop l i s).ddTroughIdx = 0
  | [], _, s, _, h1, h2, h3 => ⟨h1, h2, h3⟩
  | c :: rest, i, s, hchain, h1, h2, h3 => by
    rw [List.chain_cons] at hchain
    obtain ⟨hpc, hrest⟩ := hchain
    rw [ddLoop, ddStep_chain i s c hpc h1 h2 h3]
    exact ddLoop_chain rest (i + 1)
      ⟨c, (if s.peak < c then (c, i) else (s.peak, s.peakIdx)).2, 0, 0, 0⟩
      hrest rfl rfl rfl

/-! ## Claim theorems -/

/-- Claim C1: for BUY(100@10, net 1000), BUY(100@12, net 1200),
SELL(150@15, net 2250) on one instrument in chronological order,
`calculateWinRate` FIFO-matches the sell against the two buys (first lot
fully, second lot half with proportional cost) and produces exactly one
round trip with pnl `2250 − 1600 = 650`, a win: `winningTradesCount = 1`,
`losingTradesCount = 0`. -/
theorem c1_fifo_round_trip :
    winRateTrips [buyTx1, buyTx2, sellTx3] = [⟨650, true, 3⟩] ∧
    (calculateWinRate [buyTx1, buyTx2, sellTx3]).winningTradesCount = 1 ∧
    (calculateWinRate [buyTx1, buyTx2, sellTx3]).losingTradesCount = 0 := by
  refine ⟨?_, ?_, ?_⟩ <;>
    (first
      | (norm_num [winRateTrips, sortTransactions, List.insertionSort,
          List.orderedInsert, txDate, buyTx1, buyTx2, sellTx3, processTx,
          updatePositions, lowerAction, consumeBuys, List.find?]
         decide)
      | (norm_num [calculateWinRate, winRateTrips, sortTransactions,
          List.insertionSort, List.orderedInsert, txDate, buyTx1, buyTx2, sellTx3,
          processTx, updatePositions, lowerAction, consumeBuys, List.find?,
          List.filter]
         decide))

/-- Claim C2: `calculateAllMetrics(null, benchmarkData, transactions)`
returns, for every `benchmarkData` and `transactions`, the complete
zero-filled record of the §6 contract: every numeric field 0 and both
drawdown dates null, with no field missing. -/
theorem c2_null_performance (benchmarkData : Option BenchmarkData)
    (transactions : List Transaction) :
    (calculateAllMetrics none benchmarkData transactions).alpha = 0 ∧
    (calculateAllMetrics none benchmarkData transactions).beta = 0 ∧
    (calculateAllMetrics none benchmarkData transactions).informationRatio = 0 ∧
    (calculateAllMetrics none benchmarkData transactions).benchmarkReturn = 0 ∧
    (calculateAllMetrics none benchmarkData transactions).excessReturn = 0 ∧
    (calculateAllMetrics none benchmarkData transactions).avgDailyExcessReturn = 0 ∧
    (calculateAllMetrics none benchmarkData transactions).benchmarkVolatility = 0 ∧
    (calculateAllMetrics none benchmarkData transactions).excessReturnMaxDrawdown = 0 ∧
    (calculateAllMetrics none benchmarkData transactions).maxDrawdown = 0 ∧
    (calculateAllMetrics none benchmarkData transactions).sortino = 0 ∧
    (calculateAllMetrics none benchmarkData transactions).annualReturn = 0 ∧
    (calculateAllMetrics none benchmarkData transactions).maxRise = 0 ∧
    (calculateAllMetrics none benchmarkData transactions).dailyTradeRate = 0 ∧
    (calculateAllMetrics none benchmarkData transactions).dailyWinRate = 0 ∧
    (calculateAllMetrics none benchmarkData transactions).winRate = 0 ∧
    (calculateAllMetrics none benchmarkData transactions).tradeWinRate = 0 ∧
    (calculateAllMetrics none benchmarkData transactions).profitLossRatio = 0 ∧
    (calculateAllMetrics none benchmarkData transactions).winningDaysCount = 0 ∧
    (calculateAllMetrics none benchmarkData transactions).losingDaysCount = 0 ∧
    (calculateAllMetrics none benchmarkData transactions).winningTradesCount = 0 ∧
    (calculateAllMetrics none benchmarkData transactions).losingTradesCount = 0 ∧
    (calculateAllMetrics none benchmarkData transactions).tradeWinLoseRatio = 0 ∧
    (calculateAllMetrics none benchmarkData transactions).maxDrawdownPeakDate = none ∧
    (calculateAllMetrics none benchmarkData transactions).maxDrawdownTroughDate = none :=
  ⟨rfl, rfl, rfl, rfl, rfl, rfl, rfl, rfl, rfl, rfl, rfl, rfl, rfl, rfl, rfl, rfl,
   rfl, rfl, rfl, rfl, rfl, rfl, rfl, rfl⟩

theorem map_snd_sq (s' b' : List ℚ) (h : b'.length ≤ s'.length) (m : ℚ) :
    (s'.zip b').map (fun p => (p.2 - m) * (p.2 - m)) = b'.map (fun r => (r - m) ^ 2) := by
  calc (s'.zip b').map (fun p => (p.2 - m) * (p.2 - m))
      = ((s'.zip b').map Prod.snd).map (fun r => (r - m) * (r - m)) := by
        rw [List.map_map]; rfl
    _ = b'.map (fun r => (r - m) * (r - m)) := by rw [List.map_snd_zip s' b' h]
    _ = b'.map (fun r => (r - m) ^ 2) := by
        apply List.map_congr_left
        intro r _
        ring

theorem sqSum_div_nonneg (b' : List ℚ) (mb n : ℚ) (hn : 0 ≤ n) :
    0 ≤ (b'.map (fun r => (r - mb) ^ 2)).sum / n := by
  apply div_nonneg _ hn
  apply List.sum_nonneg
  intro x hx
  obtain ⟨r, _, hr⟩ := List.mem_map.mp hx
  rw [← hr]
  positivity

theorem sqSum_zero_cov (s' b' : List ℚ) (ms mb n : ℚ) (hn : n ≠ 0)
    (hv : (b'.map (fun r => (r - mb) ^ 2)).sum / n = 0) :
    ((s'.zip b').map (fun p => (p.1 - ms) * (p.2 - mb))).sum / n = 0 := by
  rcases div_eq_zero_iff.mp hv with hsum | h0
  · have hall := sum_eq_zero_of_nonneg _
      (fun x hx => by
        obtain ⟨r, _, hr⟩ := List.mem_map.mp hx
        rw [← hr]; positivity) hsum
    rw [List.sum_eq_zero, zero_div]
    intro x hx
    obtain ⟨p, hp, hpx⟩ := List.mem_map.mp hx
    have hp2 : p.2 ∈ b' := (List.of_mem_zip (a := p.1) (b := p.2) (by simpa using hp)).2
    have hsq : (p.2 - mb) ^ 2 = 0 := hall _ (List.mem_map.mpr ⟨p.2, hp2, rfl⟩)
    have hz : p.2 - mb = 0 := pow_eq_zero_iff (by norm_num) |>.mp hsq
    rw [← hpx, hz, mul_zero]
  · exact absurd h0 hn

theorem beta_guard (C V : ℚ) (h0 : 0 ≤ V) (hC : V = 0 → C = 0) :
    (if 0 < V then C / V else 0) = C / V := by
  split_ifs with h
  · rfl
  · have hV : V = 0 := le_antisymm (not_lt.mp h) h0
    rw [hC hV, zero_div]

/-- Claim C3: with at least 10 paired observations, `calculateAlphaBeta`
computes beta as population covariance over population benchmark variance of
the overlapping window (dividing by N), and alpha in the full CAPM form
`totalStrategyReturn − [rf + beta × (totalBenchmarkReturn − rf)]` with the
default risk-free rate 0.03; with fewer than 10 paired observations it
returns exactly `{alpha: 0, beta: 0}`. -/
theorem c3_alpha_beta :
    (∀ s b : List ℚ, ∀ ts tb : ℚ, 10 ≤ min s.length b.length →
      calculateAlphaBeta s b ts tb (3 / 100) =
        ⟨ts - (3 / 100 +
          popCovariance (s.take (min s.length b.length)) (b.take (min s.length b.length)) /
            popVariance (b.take (min s.length b.length)) * (tb - 3 / 100)),
         popCovariance (s.take (min s.length b.length)) (b.take (min s.length b.length)) /
           popVariance (b.take (min s.length b.length))⟩) ∧
    (∀ s b : List ℚ, ∀ ts tb rf : ℚ, min s.length b.length < 10 →
      calculateAlphaBeta s b ts tb rf = ⟨0, 0⟩) := by
  constructor
  · intro s b ts tb h10
    have hns : min s.length b.length ≤ s.length := min_le_left _ _
    have hnb : min s.length b.length ≤ b.length := min_le_right _ _
    have hs' : (s.take (min s.length b.length)).length = min s.length b.length := by
      rw [List.length_take]
      exact min_eq_left hns
    have hb' : (b.take (min s.length b.length)).length = min s.length b.length := by
      rw [List.length_take]
      exact min_eq_left hnb
    have hzl : (b.take (min s.length b.length)).length ≤
        (s.take (min s.length b.length)).length := by rw [hs', hb']
    have hn0 : ((min s.length b.length : ℕ) : ℚ) ≠ 0 := by
      have : (0 : ℕ) < min s.length b.length := by omega
      exact_mod_cast this.ne'
    simp only [calculateAlphaBeta]
    rw [if_neg (not_lt.mpr h10)]
    rw [foldl_pair_eq_sums]
    simp only [zero_add]
    rw [map_snd_sq _ _ hzl]
    simp only [popCovariance, popVariance, popMean, listSum_eq_sum]
    rw [hs', hb']
    rw [beta_guard _ _ (sqSum_div_nonneg _ _ _ (by positivity))
      (sqSum_zero_cov _ _ _ _ _ hn0)]
  · intro s b ts tb rf hlt
    simp only [calculateAlphaBeta]
    rw [if_pos hlt]

/-- Claim C3 witness: both clauses applied at concrete series (ten paired
observations, and an empty strategy series). -/
theorem c3_alpha_beta_witness :
    (10 ≤ min tenA.length tenB.length ∧
      calculateAlphaBeta tenA tenB (1 / 10) (1 / 20) (3 / 100) =
        ⟨1 / 10 - (3 / 100 +
          popCovariance (tenA.take (min tenA.length tenB.length))
              (tenB.take (min tenA.length tenB.length)) /
            popVariance (tenB.take (min tenA.length tenB.length)) * (1 / 20 - 3 / 100)),
         popCovariance (tenA.take (min tenA.length tenB.length))
             (tenB.take (min tenA.length tenB.length)) /
           popVariance (tenB.take (min tenA.length tenB.length))⟩) ∧
    (min ([] : List ℚ).length tenB.length < 10 ∧
      calculateAlphaBeta [] tenB (1 / 10) (1 / 20) (1 / 50) = ⟨0, 0⟩) :=
  ⟨⟨by norm_num [tenA, tenB], c3_alpha_beta.1 tenA tenB (1 / 10) (1 / 20)
      (by norm_num [tenA, tenB])⟩,
   ⟨by norm_num [tenB], c3_alpha_beta.2 [] tenB (1 / 10) (1 / 20) (1 / 50)
      (by norm_num [tenB])⟩⟩

/-- Claim C4: `calculateBenchmarkReturn` is the compound product
`∏(1+r_i) − 1` over the benchmark's own daily returns for every non-empty
list, and 0 for an empty/missing list. -/
theorem c4_benchmark_return :
    (∀ l : List ℚ, l ≠ [] → calculateBenchmarkReturn l = specCompoundReturn l) ∧
    calculateBenchmarkReturn [] = 0 := by
  constructor
  · intro l hl
    rw [calculateBenchmarkReturn, if_neg hl, foldl_mul_eq_prod l 1, one_mul,
      specCompoundReturn]
  · rfl

/-- Claim C4 witness: the compound-product identity applied at the concrete
series `[0.1, 0.2]`. -/
theorem c4_benchmark_return_witness :
    ([(1 : ℚ) / 10, 1 / 5] ≠ [] ∧
      calculateBenchmarkReturn [(1 : ℚ) / 10, 1 / 5] =
        specCompoundReturn [(1 : ℚ) / 10, 1 / 5]) :=
  ⟨by simp, c4_benchmark_return.1 [(1 : ℚ) / 10, 1 / 5] (by simp)⟩

/-- Claim C5: `calculateMaxDrawdown` always yields `maxDrawdown ≤ 0`, yields
exactly 0 on a monotonically non-decreasing cumulative-return series, and on
the series `[0, 0.05, -0.02, 0.03]` yields `-0.07` with the peak at index 1
and the trough at index 2 (their `trade_date` values as the dates). -/
theorem c5_max_drawdown :
    (∀ dps : List DailyPerformance, (calculateMaxDrawdown dps).maxDrawdown ≤ 0) ∧
    (∀ dps : List DailyPerformance,
      List.Chain' (· ≤ ·) (dps.map (fun d => d.cumulative_return)) →
      (calculateMaxDrawdown dps).maxDrawdown = 0) ∧
    calculateMaxDrawdown ddExample =
      ⟨-(7 / 100), some "2024-01-02", some "2024-01-03"⟩ := by
  refine ⟨?_, ?_, ?_⟩
  · intro dps
    match dps with
    | [] => simp [calculateMaxDrawdown]
    | d0 :: rest =>
      simp only [calculateMaxDrawdown]
      exact ddLoop_maxDD_nonpos _ 0 _ le_rfl
  · intro dps hchain
    match dps with
    | [] => simp [calculateMaxDrawdown]
    | d0 :: rest =>
      simp only [calculateMaxDrawdown]
      have hch : List.Chain (· ≤ ·) d0.cumulative_return
          ((d0 :: rest).map (fun d => d.cumulative_return)) := by
        rw [List.map_cons, List.chain_cons]
        exact ⟨le_rfl, hchain⟩
      exact (ddLoop_chain _ 0 ⟨d0.cumulative_return, 0, 0, 0, 0⟩ hch rfl rfl rfl).1
  · norm_num [calculateMaxDrawdown, ddExample, ddLoop, ddStep]

/-- Claim C5 witness: the monotone clause applied at a concrete one-day
series. -/
theorem c5_max_drawdown_witness :
    List.Chain' (· ≤ ·) (flatDay.map (fun d => d.cumulative_return)) ∧
    (calculateMaxDrawdown flatDay).maxDrawdown = 0 :=
  ⟨by simp [flatDay], c5_max_drawdown.2.1 flatDay (by simp [flatDay])⟩

/-- Claim C6 counterexample: a one-day series has no drawdown period
(`maxDrawdown = 0`, cumulative series non-decreasing) yet both result dates
are the first record's `trade_date`, not null. -/
theorem c6_counterexample :
    List.Chain' (· ≤ ·) (flatDay.map (fun d => d.cumulative_return)) ∧
    (calculateMaxDrawdown flatDay).maxDrawdown = 0 ∧
    (calculateMaxDrawdown flatDay).maxDrawdownPeakDate ≠ none ∧
    (calculateMaxDrawdown flatDay).maxDrawdownTroughDate ≠ none := by
  norm_num [calculateMaxDrawdown, flatDay, ddLoop, ddStep]
  simp

/-- Claim C6 amended: the drawdown dates are null only for an empty (or
missing) daily-performance list; on a non-empty list with no drawdown
(monotonically non-decreasing cumulative returns) both dates equal the first
record's `trade_date`. -/
theorem c6_amended :
    (∀ (d0 : DailyPerformance) (rest : List DailyPerformance),
      List.Chain' (· ≤ ·) ((d0 :: rest).map (fun d => d.cumulative_return)) →
      calculateMaxDrawdown (d0 :: rest) = ⟨0, some d0.trade_date, some d0.trade_date⟩) ∧
    calculateMaxDrawdown [] = ⟨0, none, none⟩ := by
  constructor
  · intro d0 rest hchain
    simp only [calculateMaxDrawdown]
    have hch : List.Chain (· ≤ ·) d0.cumulative_return
        ((d0 :: rest).map (fun d => d.cumulative_return)) := by
      rw [List.map_cons, List.chain_cons]
      exact ⟨le_rfl, hchain⟩
    obtain ⟨h1, h2, h3⟩ := ddLoop_chain _ 0 ⟨d0.cumulative_return, 0, 0, 0, 0⟩ hch rfl rfl rfl
    rw [h1, h2, h3]
    rfl
  · rfl

/-- Claim C6 amended witness: the non-empty no-drawdown clause at a concrete
one-day series. -/
theorem c6_amended_witness :
    List.Chain' (· ≤ ·) (([⟨"2024-01-01", 0, 0⟩] : List DailyPerformance).map
      (fun d => d.cumulative_return)) ∧
    calculateMaxDrawdown [⟨"2024-01-01", 0, 0⟩] =
      ⟨0, some "2024-01-01", some "2024-01-01"⟩ :=
  ⟨by simp, c6_amended.1 ⟨"2024-01-01", 0, 0⟩ [] (by simp)⟩

/-- Claim C7: `calculateAnnualReturn` (version used by the orchestrator,
`performanceMetrics.js`) returns 0 whenever `tradingDays < 5`, and otherwise
`(1 + totalReturn/100)^(252/tradingDays) − 1`, dividing the
percentage-scaled input by 100 regardless of its magnitude. -/
theorem c7_annual_return (totalReturn : ℚ) (tradingDays : ℕ) :
    (tradingDays < 5 → calculateAnnualReturn totalReturn tradingDays = 0) ∧
    (5 ≤ tradingDays → calculateAnnualReturn totalReturn tradingDays =
      ((1 : ℝ) + (totalReturn : ℝ) / 100) ^ ((252 : ℝ) / (tradingDays : ℝ)) - 1) := by
  constructor
  · intro h5
    simp only [calculateAnnualReturn]
    split_ifs <;> rfl
  · intro h5
    simp only [calculateAnnualReturn]
    have h0 : ¬ tradingDays = 0 := by omega
    have hlt : ¬ tradingDays < 5 := by omega
    rw [if_neg h0]
    by_cases hr : totalReturn / 100 = (0 : ℚ)
    · rw [if_pos hr]
      have ht : totalReturn = 0 := by
        field_simp at hr
        exact hr
      rw [ht]
      push_cast
      rw [zero_div, add_zero, Real.one_rpow]
      norm_num
    · rw [if_neg hr, if_neg hlt]
      rw [one_div_div]
      push_cast
      ring_nf

/-- Claim C7 witness: the short-period guard applied at 3 trading days. -/
theorem c7_annual_return_witness :
    (3 < 5 ∧ calculateAnnualReturn 5 3 = 0) :=
  ⟨by norm_num, (c7_annual_return 5 3).1 (by norm_num)⟩

/-- Claim C8: with at least one strictly positive daily return and none
strictly negative, `calculateProfitLossRatio` yields the distinguishable
infinite sentinel (`⊤`, the JS `Infinity`), counts the positive days, and
reports zero losing days; with neither positive nor negative returns the
ratio is 0. -/
theorem c8_profit_loss_ratio :
    (∀ l : List ℚ, l ≠ [] → (∃ r ∈ l, 0 < r) → (∀ r ∈ l, ¬ r < 0) →
      calculateProfitLossRatio l =
        ⟨⊤, (l.filter (fun r => decide (0 < r))).length, 0⟩) ∧
    (∀ l : List ℚ, (∀ r ∈ l, ¬ 0 < r) → (∀ r ∈ l, ¬ r < 0) →
      (calculateProfitLossRatio l).profitLossRatio = 0) := by
  constructor
  · intro l hne hpos hneg
    rw [calculateProfitLossRatio, if_neg hne]
    have hlose : l.filter (fun r => decide (r < 0)) = [] := by
      simp only [List.filter_eq_nil_iff]
      intro r hr
      simpa using hneg r hr
    have hwin : 0 < (l.filter (fun r => decide (0 < r))).length := by
      obtain ⟨r, hr, hrpos⟩ := hpos
      have : r ∈ l.filter (fun r => decide (0 < r)) := by
        rw [List.mem_filter]
        exact ⟨hr, by simpa using hrpos⟩
      exact List.length_pos.mpr (List.ne_nil_of_mem this)
    rw [hlose]
    simp only [List.length_nil, or_true, if_true, if_pos hwin]
  · intro l hpos hneg
    by_cases hne : l = []
    · subst hne; rfl
    · rw [calculateProfitLossRatio, if_neg hne]
      have hwin : l.filter (fun r => decide (0 < r)) = [] := by
        simp only [List.filter_eq_nil_iff]
        intro r hr
        simpa using hpos r hr
      rw [hwin]
      simp

/-- Claim C8 witness: the all-wins clause applied at `[0.01, 0]`. -/
theorem c8_profit_loss_ratio_witness :
    ([(1 : ℚ) / 100, 0] ≠ [] ∧ (∃ r ∈ [(1 : ℚ) / 100, 0], 0 < r) ∧
      (∀ r ∈ [(1 : ℚ) / 100, 0], ¬ r < 0)) ∧
    calculateProfitLossRatio [(1 : ℚ) / 100, 0] =
      ⟨⊤, ([(1 : ℚ) / 100, 0].filter (fun r => decide (0 < r))).length, 0⟩ :=
  ⟨⟨by simp, ⟨1 / 100, by norm_num⟩, by norm_num⟩,
    c8_profit_loss_ratio.1 [(1 : ℚ) / 100, 0] (by simp) ⟨1 / 100, by norm_num⟩ (by norm_num)⟩

theorem ffill_finds (days : List PnlDay) (bars : List BenchmarkBar) (c0 : ℚ)
    (j : ℕ) (dj : PnlDay) (cj : ℚ) (hj : days.get? j = some dj)
    (hcj : bmClose bars dj.date = some cj) (hcjpos : 0 < cj) :
    ∀ n, j < n →
      (∀ k dk ck, j < k → k < n → days.get? k = some dk →
        bmClose bars dk.date = some ck → ck ≤ 0) →
      ffillValue days bars c0 n = (cj - c0) / c0 * 100 := by
  intro n
  induction n with
  | zero => intro h; exact absurd h (Nat.not_lt_zero j)
  | succ n ih =>
    intro hjn hgap
    rw [ffillValue]
    by_cases hnj : j = n
    · subst hnj
      rw [hj]
      dsimp only
      rw [hcj]
      dsimp only
      rw [if_pos hcjpos]
    · have hjn' : j < n := by omega
      have hgap' : ∀ k dk ck, j < k → k < n → days.get? k = some dk →
          bmClose bars dk.date = some ck → ck ≤ 0 := by
        intro k dk ck h1 h2 h3 h4
        exact hgap k dk ck h1 (by omega) h3 h4
      cases hget : days.get? n with
      | none => dsimp only; exact ih hjn' hgap'
      | some dn =>
        dsimp only
        cases hcn : bmClose bars dn.date with
        | none => dsimp only; exact ih hjn' hgap'
        | some cn =>
          dsimp only
          have hle : cn ≤ 0 := hgap n dn cn hjn' (Nat.lt_succ_self n) hget hcn
          rw [if_neg (not_lt.mpr hle)]
          exact ih hjn' hgap'

/-- Claim C9: in the combined chart series, a strategy day whose date has no
benchmark-map entry is plotted with exactly the benchmark value of the most
recent prior strategy day whose date has benchmark data (forward-fill), not
interpolated, zero-filled, or re-derived values. -/
theorem c9_forward_fill (days : List PnlDay) (bars : List BenchmarkBar)
    (idx j : ℕ) (d0 dIdx dj : PnlDay) (c0 cj : ℚ)
    (hd0 : days.get? 0 = some d0) (hc0 : bmClose bars d0.date = some c0)
    (hc0pos : 0 < c0)
    (hidx : 0 < idx) (hdIdx : days.get? idx = some dIdx)
    (hmiss : bmClose bars dIdx.date = none)
    (hj : j < idx) (hjget : days.get? j = some dj)
    (hcj : bmClose bars dj.date = some cj) (hcjpos : 0 < cj)
    (hgap : ∀ k dk ck, j < k → k < idx → days.get? k = some dk →
      bmClose bars dk.date = some ck → ck ≤ 0) :
    chartBenchmarkValue days bars idx = chartBenchmarkValue days bars j := by
  have hidx0 : idx ≠ 0 := by omega
  have hlhs : chartBenchmarkValue days bars idx = (cj - c0) / c0 * 100 := by
    rw [chartBenchmarkValue, if_neg hidx0]
    simp only [hd0, hc0, if_pos hc0pos, hdIdx, hmiss]
    exact ffill_finds days bars c0 j dj cj hjget hcj hcjpos idx hj hgap
  rw [hlhs]
  by_cases hj0 : j = 0
  · subst hj0
    have hdj : dj = d0 := by
      rw [hd0] at hjget
      exact (Option.some_inj.mp hjget).symm
    have hcjc0 : cj = c0 := by
      rw [hdj] at hcj
      rw [hc0] at hcj
      exact (Option.some_inj.mp hcj).symm
    rw [chartBenchmarkValue, if_pos rfl, hcjc0]
    rw [sub_self, zero_div, zero_mul]
  · rw [chartBenchmarkValue, if_neg hj0]
    simp only [hd0, hc0, if_pos hc0pos, hjget, hcj, if_pos hcjpos]

/-- Claim C9 witness: a three-day chart series whose third date is absent
from the two-bar benchmark series forward-fills day 2's value. -/
theorem c9_forward_fill_witness :
    chartDays.get? 0 = some ⟨"d0", 100⟩ ∧
    bmClose chartBars "d0" = some 10 ∧
    chartDays.get? 2 = some ⟨"d2", 102⟩ ∧
    bmClose chartBars "d2" = none ∧
    chartDays.get? 1 = some ⟨"d1", 101⟩ ∧
    bmClose chartBars "d1" = some 12 ∧
    chartBenchmarkValue chartDays chartBars 2 = chartBenchmarkValue chartDays chartBars 1 :=
  ⟨rfl, rfl, rfl, rfl, rfl, rfl,
    c9_forward_fill chartDays chartBars 2 1 ⟨"d0", 100⟩ ⟨"d2", 102⟩ ⟨"d1", 101⟩ 10 12
      rfl rfl (by norm_num) (by norm_num) rfl rfl (by norm_num) rfl rfl (by norm_num)
      (fun k dk ck h1 h2 _ _ => absurd h2 (by omega))⟩

theorem benchmarkVolatility_eq_spec (l : List ℚ) (h : l ≠ []) :
    calculateBenchmarkVolatility l = Real.sqrt ((popVariance l : ℚ) : ℝ) * Real.sqrt 252 := by
  rw [calculateBenchmarkVolatility, if_neg h]
  dsimp only
  rw [foldl_add_eq_sum (fun r => (r - listSum l / l.length) ^ 2) l 0, zero_add,
    listSum_eq_sum, popVariance, popMean]

/-- Claim C10: with `daily_performances` present but empty and a non-empty
benchmark series, `calculateAllMetrics` still compounds the full benchmark
return and annualizes the benchmark's population standard deviation, while
alpha, beta, information ratio, average daily excess return and
excess-return max drawdown are 0 (no paired observations) and every
daily-series field is zeroed. -/
theorem c10_empty_daily (perf : Performance) (bd : BenchmarkData)
    (transactions : List Transaction) (bars : List BenchmarkBar)
    (h1 : perf.daily_performances = some []) (h2 : bd.data = some bars)
    (h3 : bars ≠ []) :
    (calculateAllMetrics (some perf) (some bd) transactions).benchmarkReturn =
      specCompoundReturn (bars.map (fun b => b.daily_return)) ∧
    (calculateAllMetrics (some perf) (some bd) transactions).benchmarkVolatility =
      Real.sqrt ((popVariance (bars.map (fun b => b.daily_return)) : ℚ) : ℝ) *
        Real.sqrt 252 ∧
    (calculateAllMetrics (some perf) (some bd) transactions).alpha = 0 ∧
    (calculateAllMetrics (some perf) (some bd) transactions).beta = 0 ∧
    (calculateAllMetrics (some perf) (some bd) transactions).informationRatio = 0 ∧
    (calculateAllMetrics (some perf) (some bd) transactions).avgDailyExcessReturn = 0 ∧
    (calculateAllMetrics (some perf) (some bd) transactions).excessReturnMaxDrawdown = 0 ∧
    (calculateAllMetrics (some perf) (some bd) transactions).maxRise = 0 ∧
    (calculateAllMetrics (some perf) (some bd) transactions).dailyTradeRate = 0 ∧
    (calculateAllMetrics (some perf) (some bd) transactions).annualReturn = 0 ∧
    (calculateAllMetrics (some perf) (some bd) transactions).maxDrawdown = 0 ∧
    (calculateAllMetrics (some perf) (some bd) transactions).maxDrawdownPeakDate = none ∧
    (calculateAllMetrics (some perf) (some bd) transactions).maxDrawdownTroughDate = none ∧
    (calculateAllMetrics (some perf) (some bd) transactions).sortino = 0 ∧
    (calculateAllMetrics (some perf) (some bd) transactions).dailyWinRate = 0 ∧
    (calculateAllMetrics (some perf) (some bd) transactions).winRate = 0 ∧
    (calculateAllMetrics (some perf) (some bd) transactions).profitLossRatio = 0 ∧
    (calculateAllMetrics (some perf) (some bd) transactions).winningDaysCount = 0 ∧
    (calculateAllMetrics (some perf) (some bd) transactions).losingDaysCount = 0 := by
  have hmne : bars.map (fun b => b.daily_return) ≠ [] := by
    simpa using h3
  simp only [calculateAllMetrics, h1, h2, List.length_nil, lt_irrefl, if_false,
    List.map_nil, zeroDailyStats]
  refine ⟨?_, ?_, ?_, ?_, ?_, ?_, ?_, ?_, ?_, ?_, ?_, ?_, ?_, ?_, ?_, ?_, ?_, ?_, ?_⟩
  all_goals first
    | trivial
    | (rw [calculateBenchmarkReturn, if_neg hmne, foldl_mul_eq_prod, one_mul,
        specCompoundReturn])
    | exact benchmarkVolatility_eq_spec _ hmne
    | simp [calculateAlphaBeta]
    | simp [calculateInformationRatio]
    | simp [calculateAvgDailyExcessReturn]
    | simp [calculateExcessReturnMaxDrawdown]

/-- Claim C10 witness: the theorem applied at a performance object with an
empty daily list and a concrete two-bar benchmark. -/
theorem c10_empty_daily_witness :
    (emptyDailyPerf.daily_performances = some [] ∧
      twoBarBenchmark.data = some [⟨"d0", 10, 1 / 10⟩, ⟨"d1", 12, 1 / 5⟩] ∧
      ([⟨"d0", 10, 1 / 10⟩, ⟨"d1", 12, 1 / 5⟩] : List BenchmarkBar) ≠ []) ∧
    (calculateAllMetrics (some emptyDailyPerf) (some twoBarBenchmark) []).benchmarkReturn =
      specCompoundReturn (([⟨"d0", 10, 1 / 10⟩, ⟨"d1", 12, 1 / 5⟩] :
        List BenchmarkBar).map (fun b => b.daily_return)) ∧
    (calculateAllMetrics (some emptyDailyPerf) (some twoBarBenchmark) []).beta = 0 :=
  ⟨⟨rfl, rfl, by simp⟩,
    (c10_empty_daily emptyDailyPerf twoBarBenchmark [] _ rfl rfl (by simp)).1,
    (c10_empty_daily emptyDailyPerf twoBarBenchmark [] _ rfl rfl (by simp)).2.2.2.1⟩

end QuantWeb
